import Mathlib

/-
Verification development for the guard_submission_bot repository.

The definitions below are a shallow embedding of the queue/lock/cleanup
webhook server (webhook_server.py), the 2FA code fetcher (guard_login.py,
fetch_guard_verification_code) and the configuration constants (config.py
and the constants at the top of webhook_server.py).  External effects
(IMAP traffic, the browser, the filesystem, wall-clock time) are passed in
explicitly: directory listings become lists of named entries with
modification times, the mailbox becomes a per-attempt oracle, and the
browser-automation calls become an explicit world record whose fields are
Except values (error = a raised Python exception).  Machine state that the
Python process keeps in memory (active_sessions, task_queue,
active_workers, queue_position, browser_in_use) becomes an explicit state
record threaded through the operations.
-/

namespace Guard

/-! ## String helpers (Python substring / truthiness semantics) -/

/-- Occurrence of pat as a contiguous subsequence of a list (Python
in-operator on strings, seen on the underlying character lists). -/
def seqContains [BEq α] (pat : List α) : List α → Bool
  | [] => pat.isEmpty
  | a :: as => List.isPrefixOf pat (a :: as) || seqContains pat as

/-- Python substring test: pat in s. -/
def strContains (s pat : String) : Bool :=
  seqContains pat.toList s.toList

/-- Python str.startswith, on the underlying character lists. -/
def strStarts (s pre : String) : Bool :=
  List.isPrefixOf pre.toList s.toList

/-- Python str.endswith, on the underlying character lists. -/
def strEnds (s suf : String) : Bool :=
  List.isSuffixOf suf.toList s.toList

/-- Python str.split on a single underscore separator, on character
lists. -/
def splitOnUnderscore : List Char → List (List Char)
  | [] => [[]]
  | c :: cs =>
      let r := splitOnUnderscore cs
      if c == '_' then [] :: r
      else match r with
        | [] => [[c]]
        | h :: t => (c :: h) :: t

/-- Python truthiness of an optional string: None and the empty string are
falsy, every other string is truthy. -/
def truthy : Option String → Bool
  | none => false
  | some s => !s.isEmpty

/-- Python expression (v or dflt) for an optional string v. -/
def orElseStr (v : Option String) (dflt : String) : String :=
  match v with
  | some t => if t.isEmpty then dflt else t
  | none => dflt

/-! ## Configuration constants

webhook_server.py lines 59-61. -/

def CLEANUP_INTERVAL_HOURS : Nat := 6

def CLEANUP_MAX_AGE_DAYS : Nat := 2

def MAX_TRACE_FILES : Nat := 5

/-- max_age_seconds computed in cleanup_old_files (line 178). -/
def max_age_seconds : Nat := CLEANUP_MAX_AGE_DAYS * 24 * 60 * 60

/-! ## Filesystem model

A directory is a list of entries carrying a name and a modification time
(seconds).  Deletions always succeed in the model; in the source each
deletion is individually guarded by a try/except that only logs. -/

structure FsEntry where
  name : String
  mtime : Nat
deriving DecidableEq, Repr

/-- Survival predicate for one entry of SESSION_DIR under step 1 of
cleanup_old_files (webhook_server.py lines 182-194): the glob only visits
names starting with browser_data_, the folder named browser_data_default
is skipped, and the rest are deleted when now - mtime > max_age_seconds.
Nat subtraction clips at zero exactly like the Python age comparison
rejects future mtimes. -/
def keep_browser_folder (now : Nat) (f : FsEntry) : Bool :=
  if !(strStarts f.name "browser_data_") then true
  else if f.name == "browser_data_default" then true
  else !(decide (now - f.mtime > max_age_seconds))

/-- Step 1 of cleanup_old_files: entries of SESSION_DIR surviving the
browser_data sweep. -/
def cleanup_browser_data (now : Nat) (folders : List FsEntry) : List FsEntry :=
  folders.filter (keep_browser_folder now)

/-- Descending modification-time order used by
sorted(key=lambda f: f.stat().st_mtime, reverse=True) (line 198). -/
def mtime_ge (f g : FsEntry) : Bool :=
  decide (g.mtime ≤ f.mtime)

/-- Step 2 of cleanup_old_files (webhook_server.py lines 196-206): sort the
trace files by modification time, newest first, and delete everything after
the first MAX_TRACE_FILES entries; when there are at most MAX_TRACE_FILES
files the deletion loop is not entered.  The result is the set of surviving
trace files. -/
def cleanup_traces (traces : List FsEntry) : List FsEntry :=
  let trace_files := traces.mergeSort mtime_ge
  if trace_files.length > MAX_TRACE_FILES then trace_files.take MAX_TRACE_FILES
  else traces

/-! ## Trace retrieval endpoint

get_trace (webhook_server.py lines 428-466).  TRACE_DIR is modelled as the
list of file names it contains (every entry a regular file). -/

/-- Glob pattern of line 436: any file whose name contains task_id and ends
in .zip. -/
def glob_matches (task_id : String) (name : String) : Bool :=
  strContains name task_id && strEnds name ".zip"

/-- The GET /trace/{task_id} lookup: build the candidate list (exact name,
then default.zip, then every glob match) and serve the first candidate that
exists; none means the endpoint answers 404. -/
def get_trace (traces : List String) (task_id : String) : Option String :=
  let trace_candidates :=
    (task_id ++ ".zip") :: "default.zip" :: traces.filter (glob_matches task_id)
  trace_candidates.find? (fun c => traces.contains c)

/-! ## 2FA code fetcher

fetch_guard_verification_code (guard_login.py lines 34-185).  One IMAP
attempt is an oracle value: the connection may raise, the search may fail,
or it yields the inbox (message list in arrival order).  Message bodies are
the decoded payload text. -/

structure Email where
  from_email : String
  subject : String
  /-- Whether mail.fetch returned OK for this message (line 102). -/
  fetch_ok : Bool
  /-- Age of the message in seconds when the Date header is present and
  parseable, none otherwise (lines 122-138). -/
  age_seconds : Option Nat
  body : String
deriving DecidableEq, Repr

/-- Word character in the sense of the regex word boundary. -/
def isWordChar (c : Char) : Bool :=
  c.isAlphanum || c == '_'

/-- Search for the literal pattern pat immediately followed by six digits,
scanning left to right (the regex search for: verification code is
followed by a six-digit group, line 154). -/
def findCodeAfter (pat : List Char) : List Char → Option String
  | [] => none
  | c :: cs =>
      if List.isPrefixOf pat (c :: cs) then
        let rest := (c :: cs).drop pat.length
        let code := rest.take 6
        if code.length == 6 && code.all Char.isDigit then some (String.mk code)
        else findCodeAfter pat cs
      else findCodeAfter pat cs

/-- Fallback pattern of line 157: a six-digit run delimited by word
boundaries; prev is the character just before the current position. -/
def findSixDigits (prev : Option Char) : List Char → Option String
  | [] => none
  | c :: cs =>
      let boundary := match prev with
        | none => true
        | some p => !isWordChar p
      let run := (c :: cs).take 6
      let after := (c :: cs).drop 6
      let afterOk := match after with
        | [] => true
        | d :: _ => !isWordChar d
      if boundary && c.isDigit && (run.length == 6 && run.all Char.isDigit) && afterOk then
        some (String.mk run)
      else findSixDigits (some c) cs

/-- Code extraction from a message body (lines 152-158): the primary
case-insensitive pattern, then the bare six-digit fallback. -/
def extract_code (body : String) : Option String :=
  match findCodeAfter "verification code is ".toList body.toLower.toList with
  | some code => some code
  | none => findSixDigits none body.toList

/-- Filter chain applied to one fetched message (lines 100-164): fetch must
succeed, the sender or subject must contain guard case-insensitively, a
parseable Date older than 90 seconds rejects the message, otherwise the
body is scanned for a code. -/
def email_code (e : Email) : Option String :=
  if !e.fetch_ok then none
  else if !(strContains e.from_email.toLower "guard") && !(strContains e.subject.toLower "guard") then none
  else match e.age_seconds with
    | some age => if age > 90 then none else extract_code e.body
    | none => extract_code e.body

/-- One pass over the inbox (lines 85-168): keep the last five messages,
walk them newest first, return the first extracted code. -/
def scan_inbox (email_ids : List Email) : Option String :=
  let recent_emails := email_ids.drop (email_ids.length - 5)
  (recent_emails.reverse.filterMap email_code).head?

/-- Outcome of one IMAP attempt: the connection raised (line 179), the
search returned a failure status (line 78), or an inbox listing (possibly
empty, line 87).  Every outcome except a found code falls through to the
next attempt. -/
inductive AttemptResult where
  | imapError (msg : String)
  | searchFailed
  | inbox (emails : List Email)
deriving DecidableEq

/-- Code produced by one attempt, if any. -/
def attempt_code : AttemptResult → Option String
  | .inbox emails => scan_inbox emails
  | _ => none

/-- The retry loop (for attempt in range(1, max_retries + 1)): returns the
found code together with the number of attempts actually performed. -/
def fetch_from (mb : Nat → AttemptResult) (attempt : Nat) : Nat → Option String × Nat
  | 0 => (none, 0)
  | k + 1 =>
      match attempt_code (mb attempt) with
      | some code => (some code, 1)
      | none =>
          let r := fetch_from mb (attempt + 1) k
          (r.1, r.2 + 1)

/-- fetch_guard_verification_code: missing credentials return immediately
with no attempt (lines 45-50), otherwise the bounded retry loop runs. -/
def fetch_guard_verification_code (gmail_user gmail_password : String)
    (mb : Nat → AttemptResult) (max_retries : Nat) : Option String × Nat :=
  if gmail_user.isEmpty || gmail_password.isEmpty then (none, 0)
  else fetch_from mb 1 max_retries

/-! ## Webhook server data model

The JSON payload of POST /webhook and the per-task record stored in the
active_sessions dictionary.  A Python dict key that a given record does not
carry is modelled as a none field; the initial record of line 350 stores
the submission_id key even when its value is null, which also reads back as
none, matching what .get returns in both cases. -/

structure QuoteData where
  combined_sales : Option String
  gas_gallons : Option String
  year_built : Option String
  square_footage : Option String
  mpds : Option String
  employees : Option String
deriving DecidableEq, Repr

/-- Account payload: only the pieces the server itself inspects are named;
the remaining fields are opaque to the queue/lock/cleanup component. -/
structure AccountData where
  applicant_name : Option String
  state : Option String
deriving DecidableEq, Repr

/-- One record of the active_sessions dictionary.  Every key that any write
site of webhook_server.py can place in a record appears as an optional
field; a replacement with a fresh dict leaves the unnamed fields none. -/
structure SessionRecord where
  status : String
  task_id : String
  submission_id : Option String := none
  policy_code : Option String := none
  create_account : Option Bool := none
  queued_at : Option String := none
  quote_data : Option QuoteData := none
  queue_position : Option Nat := none
  active_workers : Option Nat := none
  max_workers : Option Nat := none
  picked_at : Option String := none
  started_at : Option String := none
  completed_at : Option String := none
  failed_at : Option String := none
  message : Option String := none
  error : Option String := none
  error_type : Option String := none
  traceback : Option String := none
  quotation_url : Option String := none
  result : Option String := none
deriving DecidableEq, Repr

/-- The active_sessions dictionary, as an insertion-ordered association
list (Python dicts preserve insertion order). -/
abbrev SessionMap : Type := List (String × SessionRecord)

/-- Dictionary read: active_sessions.get(k) / active_sessions[k]. -/
def lookupSession (m : SessionMap) (k : String) : Option SessionRecord :=
  (List.find? (fun p => p.1 == k) m).map Prod.snd

/-- Dictionary write active_sessions[k] = v: overwrite in place when the
key exists, append otherwise. -/
def setSession (m : SessionMap) (k : String) (v : SessionRecord) : SessionMap :=
  if List.any m (fun p => p.1 == k) then
    List.map (fun p => if p.1 == k then (k, v) else p) m
  else m ++ [(k, v)]

/-- Guarded field mutation, the pattern if k in active_sessions:
active_sessions[k][field] = value. -/
def updateSession (m : SessionMap) (k : String) (f : SessionRecord → SessionRecord) : SessionMap :=
  List.map (fun p => if p.1 == k then (p.1, f p.2) else p) m

/-! ## Outbound Coversheet notification

extract_submission_id and notify_coversheet_completion
(webhook_server.py lines 68-165).  The HTTP POST itself is external; the
model records the payload the function would send. -/

/-- extract_submission_id (lines 68-91): split the task id on underscores
and return the middle part when it looks like a submission id, the whole
task id as fallback, and None for a falsy task id. -/
def extract_submission_id (task_id : String) : Option String :=
  if task_id.isEmpty then none
  else
    let parts := (splitOnUnderscore task_id.toList).map String.mk
    if parts.length ≥ 3 then
      let sid := parts.getD 1 ""
      if strContains sid "-" && decide (sid.length > 10) then some sid
      else if sid.length > 5 then some sid
      else some task_id
    else some task_id

/-- One outbound notification attempt with the arguments the worker passed
and the submission_id the payload would carry after the fallback of lines
108-116. -/
structure Notification where
  task_id : String
  submission_id_read : Option String
  payload_submission_id : String
  success : Bool
  error : Option String
deriving DecidableEq, Repr

/-- notify_coversheet_completion: apply the extract fallback when the
caller passed a falsy submission_id, then default the payload field to the
task id.  Delivery failures are swallowed (lines 152-165), so the call has
no effect beyond the recorded payload. -/
def notify_coversheet_completion (task_id : String) (submission_id : Option String)
    (success : Bool) (error : Option String) : Notification :=
  let sid := if truthy submission_id then submission_id else extract_submission_id task_id
  { task_id := task_id
    submission_id_read := submission_id
    payload_submission_id := orElseStr sid task_id
    success := success
    error := error }

/-! ## Webhook receiver

webhook_receiver (webhook_server.py lines 273-390).  The JSON layer
(is_json, empty payload, CORS preflight) is upstream of the claims and is
assumed to have produced a parsed payload. -/

structure WebhookPayload where
  action : String
  task_id : Option String
  policy_code : Option String
  quote_data : Option QuoteData
  create_account : Bool
  account_data : Option AccountData
  submission_id : Option String
deriving DecidableEq, Repr

/-- Tuple pushed onto task_queue at line 364. -/
structure QueueItem where
  task_id : String
  policy_code : Option String
  quote_data : Option QuoteData
  create_account : Bool
  account_data : Option AccountData
deriving DecidableEq, Repr

/-- In-memory server state: the four module-level containers of
webhook_server.py lines 45-56. -/
structure ServerState where
  active_sessions : SessionMap
  task_queue : List QueueItem
  active_workers : Nat
  queue_position : List (String × Nat)
  browser_in_use : Bool
deriving DecidableEq

/-- JSON body and HTTP code of a webhook_receiver response. -/
structure HttpResponse where
  code : Nat
  status : String
  message : Option String
  task_id : Option String
  status_url : Option String
deriving DecidableEq, Repr

/-- Task id generation of lines 329-335.  The source formats the clock two
different ways (unix timestamp and a formatted date); both are opaque
suffix strings here, passed in as ts. -/
def generate_task_id (p : WebhookPayload) (ts : String) : String :=
  if truthy p.submission_id then
    orElseStr p.task_id ("guard_" ++ p.submission_id.getD "" ++ "_" ++ ts)
  else
    orElseStr p.task_id ("guard_" ++ orElseStr p.policy_code "new" ++ "_" ++ ts)

/-- webhook_receiver on a parsed payload: validation, task id generation,
initial record, enqueue, 202 response.  ts is the clock suffix used in
generated ids and now the isoformat timestamp stored as queued_at. -/
def webhook_receiver (MAX_WORKERS : Nat) (ts now : String) (p : WebhookPayload)
    (st : ServerState) : HttpResponse × ServerState :=
  if !p.create_account && !(truthy p.policy_code) then
    ({ code := 400, status := "error"
       message := some "policy_code is required (or set create_account to true)"
       task_id := none, status_url := none }, st)
  else if p.action == "start_automation" then
    let task_id := generate_task_id p ts
    let current_workers := st.active_workers
    let queue_size := st.task_queue.length
    let record : SessionRecord :=
      { status := if MAX_WORKERS ≤ current_workers then "queued" else "running"
        task_id := task_id
        submission_id := p.submission_id
        policy_code := p.policy_code
        create_account := some p.create_account
        queued_at := some now
        quote_data := p.quote_data
        queue_position := some (if MAX_WORKERS ≤ current_workers then queue_size + 1 else 0)
        active_workers := some current_workers
        max_workers := some MAX_WORKERS }
    let st' : ServerState :=
      { st with
        active_sessions := setSession st.active_sessions task_id record
        task_queue := st.task_queue ++
          [{ task_id := task_id, policy_code := p.policy_code
             quote_data := p.quote_data, create_account := p.create_account
             account_data := p.account_data }] }
    ({ code := 202, status := "accepted"
       message := some "Guard automation task started"
       task_id := some task_id
       status_url := some ("/task/" ++ task_id ++ "/status") }, st')
  else
    ({ code := 400, status := "error"
       message := some ("Unknown action: " ++ p.action)
       task_id := none, status_url := none }, st)

/-- GET /task/{task_id}/status (lines 393-402): the stored record with
code 200, or 404 when the id is unknown. -/
def get_task_status (st : ServerState) (task_id : String) : Nat × Option SessionRecord :=
  match lookupSession st.active_sessions task_id with
  | some r => (200, some r)
  | none => (404, none)

/-! ## Automation pipeline

run_automation_task (webhook_server.py lines 560-902).  The browser-side
calls are an explicit world: each field is the outcome of the
corresponding external call, error meaning the call raised a Python
exception.  Exceptions raised by init_browser are folded into the
following call of the same try region, which has the same handler. -/

/-- A raised Python exception as the except blocks observe it: str(e),
type(e).__name__ and traceback.format_exc(). -/
structure RaisedExc where
  message : String
  etype : String
  tb : String
deriving DecidableEq, Repr

/-- Result of login_handler.setup_account (line 664). -/
structure SetupResult where
  success : Bool
  policy_code : String
  quotation_url : String
deriving DecidableEq, Repr

/-- Result of login_handler.run_full_automation (line 813). -/
structure FullResult where
  success : Bool
  message : String
  quote_url : Option String
deriving DecidableEq, Repr

deriving instance DecidableEq for Except

/-- Outcomes of the external browser-automation calls made by one task. -/
structure AutomationWorld where
  login : Except RaisedExc Bool
  setup_account : Except RaisedExc SetupResult
  quote_login : Except RaisedExc Bool
  quote_nav : Except RaisedExc Bool
  quote_fill : Except RaisedExc Unit
  full_automation : Except RaisedExc FullResult
deriving DecidableEq

/-- Fresh failure record of lines 644-649 (also lines 669-674, 731-736,
742-747, 784-789): only status, task_id, error and failed_at are set. -/
def failed_record (now task_id err : String) : SessionRecord :=
  { status := "failed", task_id := task_id, error := some err, failed_at := some now }

/-- The read submission_id = active_sessions[task_id].get(..) performed
just before each notification (for example lines 651-653). -/
def read_submission_id (m : SessionMap) (task_id : String) : Option String :=
  (lookupSession m task_id).bind SessionRecord.submission_id

/-- Failure path that replaces the record and notifies Coversheet
(lines 644-660, 669-685, 779-802, the record read back after the
replacement). -/
def failed_notify_path (now task_id err : String) (sessions : SessionMap) :
    SessionMap × List Notification :=
  let s1 := setSession sessions task_id (failed_record now task_id err)
  let sub := read_submission_id s1 task_id
  (s1, [notify_coversheet_completion task_id sub false (some err)])

/-- Failure path of the early returns at lines 729-737 and 740-748: the
record is replaced but no notification is sent. -/
def failed_silent_path (now task_id err : String) (sessions : SessionMap) :
    SessionMap × List Notification :=
  (setSession sessions task_id (failed_record now task_id err), [])

/-- Outer exception handler of lines 869-896: error record carrying the
policy code, exception type and traceback, then a notification. -/
def outer_error_path (now task_id : String) (policy_code : Option String)
    (e : RaisedExc) (sessions : SessionMap) : SessionMap × List Notification :=
  let s1 := setSession sessions task_id
    { status := "error", task_id := task_id, policy_code := policy_code
      error := some e.message, error_type := some e.etype, traceback := some e.tb
      failed_at := some now }
  let sub := read_submission_id s1 task_id
  (s1, [notify_coversheet_completion task_id sub false (some e.message)])

/-- Success record and notification at the end of the account-creation
flow (lines 753-777). -/
def completed_account_path (now task_id new_code qurl : String)
    (sessions : SessionMap) : SessionMap × List Notification :=
  let s2 := setSession sessions task_id
    { status := "completed", task_id := task_id, policy_code := some new_code
      completed_at := some now
      message := some ("Quote automation completed successfully for policy " ++ new_code)
      quotation_url := some qurl }
  let sub := read_submission_id s2 task_id
  (s2, [notify_coversheet_completion task_id sub true none])

/-- Success record and notification of the existing-policy flow
(lines 818-845). -/
def completed_full_path (now task_id : String) (pc : Option String) (msg : String)
    (sessions : SessionMap) : SessionMap × List Notification :=
  let s1 := setSession sessions task_id
    { status := "completed", task_id := task_id, policy_code := pc
      completed_at := some now, message := some msg, result := some msg }
  let sub := read_submission_id s1 task_id
  (s1, [notify_coversheet_completion task_id sub true none])

/-- Failure record and notification of the existing-policy flow
(lines 846-867): this replacement keeps the policy code. -/
def failed_full_path (now task_id : String) (pc : Option String) (msg : String)
    (sessions : SessionMap) : SessionMap × List Notification :=
  let s1 := setSession sessions task_id
    { status := "failed", task_id := task_id, policy_code := pc
      error := some msg, failed_at := some now }
  let sub := read_submission_id s1 task_id
  (s1, [notify_coversheet_completion task_id sub false (some msg)])

/-- run_automation_task: the session-map writes and notifications of one
task, for a given world of external outcomes.  Pure data preparation that
never touches active_sessions (trace id naming, hardcoded account
defaults, quote parameter defaults, browser open and close) is elided. -/
def run_automation_task (now : String) (w : AutomationWorld) (task_id : String)
    (policy_code : Option String) (create_account : Bool)
    (sessions : SessionMap) : SessionMap × List Notification :=
  if create_account then
    match w.login with
    | .error e => outer_error_path now task_id policy_code e sessions
    | .ok login_success =>
      if !login_success then failed_notify_path now task_id "Login failed" sessions
      else match w.setup_account with
      | .error e => outer_error_path now task_id policy_code e sessions
      | .ok account_result =>
        if !account_result.success then
          failed_notify_path now task_id "Account creation failed" sessions
        else
          let new_code := account_result.policy_code
          let s1 := updateSession sessions task_id (fun r =>
            { r with policy_code := some new_code
                     quotation_url := some account_result.quotation_url })
          match w.quote_login with
          | .error e => failed_notify_path now task_id ("Quote automation error: " ++ e.message) s1
          | .ok ql =>
            if !ql then failed_silent_path now task_id "Quote login failed" s1
            else match w.quote_nav with
            | .error e => failed_notify_path now task_id ("Quote automation error: " ++ e.message) s1
            | .ok nav =>
              if !nav then failed_silent_path now task_id "Navigation to quote page failed" s1
              else match w.quote_fill with
              | .error e => failed_notify_path now task_id ("Quote automation error: " ++ e.message) s1
              | .ok _ =>
                completed_account_path now task_id new_code account_result.quotation_url s1
  else
    match w.full_automation with
    | .error e => outer_error_path now task_id policy_code e sessions
    | .ok ar =>
      if ar.success then completed_full_path now task_id policy_code ar.message sessions
      else failed_full_path now task_id policy_code ar.message sessions

/-! ## Worker thread, state effect

One iteration of worker_thread (webhook_server.py lines 905-963) as a
state transformer.  syncExc models the except branch of lines 946-950: a
raise escaping run_automation_task_sync, observed at the worker boundary
after whatever session-map writes the task already made. -/

def worker_iteration (now : String) (w : AutomationWorld) (syncExc : Option String)
    (st : ServerState) : ServerState × List Notification :=
  match st.task_queue with
  | [] => (st, [])
  | item :: rest =>
    let task_id := item.task_id
    let st1 : ServerState :=
      { st with
        task_queue := rest
        active_sessions := updateSession st.active_sessions task_id (fun r =>
          { r with status := "waiting_for_browser", picked_at := some now }) }
    let st2 : ServerState :=
      { st1 with browser_in_use := true, active_workers := st1.active_workers + 1 }
    let st3 : ServerState :=
      { st2 with
        active_sessions := updateSession st2.active_sessions task_id (fun r =>
          { r with status := "running", queue_position := some 0, started_at := some now })
        queue_position := st2.queue_position.filter (fun q => !(q.1 == task_id)) }
    let ran := run_automation_task now w task_id item.policy_code item.create_account
      st3.active_sessions
    let st4 : ServerState := { st3 with active_sessions := ran.1 }
    let st5 : ServerState :=
      match syncExc with
      | some e =>
        { st4 with active_sessions := updateSession st4.active_sessions task_id (fun r =>
            { r with status := "error", error := some e }) }
      | none => st4
    ({ st5 with active_workers := st5.active_workers - 1, browser_in_use := false }, ran.2)

/-! ## All server operations

Every operation of the process, for the key-retention invariant: the HTTP
handlers, one worker iteration, and one cleanup sweep.  cleanup_old_files
(lines 168-240) touches only the filesystem, never active_sessions. -/

inductive ServerOp where
  | webhook (MAX_WORKERS : Nat) (ts now : String) (p : WebhookPayload)
  | workerLoop (now : String) (w : AutomationWorld) (syncExc : Option String)
  | statusLookup (task_id : String)
  | healthCheck
  | listTasks
  | queueStatus
  | traceFetch (task_id : String)
  | listTraces
  | cleanupSweep

/-- Effect of each operation on the in-memory server state.  The read-only
endpoints and the cleanup sweep leave it unchanged. -/
def applyOp : ServerOp → ServerState → ServerState
  | .webhook mw ts now p, st => (webhook_receiver mw ts now p st).2
  | .workerLoop now w exc, st => (worker_iteration now w exc st).1
  | .statusLookup _, st => st
  | .healthCheck, st => st
  | .listTasks, st => st
  | .queueStatus, st => st
  | .traceFetch _, st => st
  | .listTraces, st => st
  | .cleanupSweep, st => st

/-! ## Worker thread, lock events

The same worker iteration viewed as the sequence of lock and status
events it performs (lines 909-963), resolved per outcome of the guarded
region: the try body either completes (any return of
run_automation_task_sync, early returns included) or raises into the
except branch.  The finally block always runs once. -/

inductive RunOutcome where
  | completedNormally
  | raised (msg : String)
deriving DecidableEq, Repr

inductive WorkerEvent where
  | dequeue (task_id : String)
  | setWaiting
  | acquireLock
  | incrWorkers
  | setRunning
  | runTask
  | setError (msg : String)
  | decrWorkers
  | releaseLock
  | taskDone
deriving DecidableEq, Repr

def isRelease : WorkerEvent → Bool
  | .releaseLock => true
  | _ => false

def isAcquire : WorkerEvent → Bool
  | .acquireLock => true
  | _ => false

/-- Events of one worker iteration that dequeued task_id: dequeue and
status update (912-918), lock acquisition and counter increment (922-928),
the try body (932-944), the except branch when the body raised (946-950),
then the finally block (951-963): counter decrement, lock release, task
done.  Python finally semantics run the block exactly once on both the
normal and the raising path. -/
def worker_iteration_events (task_id : String) (r : RunOutcome) : List WorkerEvent :=
  [.dequeue task_id, .setWaiting, .acquireLock, .incrWorkers, .setRunning, .runTask]
  ++ (match r with
      | .completedNormally => []
      | .raised msg => [.setError msg])
  ++ [.decrWorkers, .releaseLock, .taskDone]

/-! ## Worker pool and browser lock

The thread pool of init_workers (lines 971-997): MAX_WORKERS identical
threads looping dequeue, acquire browser_lock, run, release
(worker_thread, lines 905-963), plus the HTTP side enqueuing.
threading.Lock semantics: acquire blocks until no thread holds the lock,
so the acquire transition fires only when the lock is free; the release at
line 959 is executed by the thread that acquired at line 922, in the same
loop body. -/

inductive WorkerPhase where
  | idle
  | waitingForBrowser
  | holdingBrowser
deriving DecidableEq, Repr

structure PoolState where
  phases : List WorkerPhase
  lockHolder : Option Nat
  queued : Nat
deriving DecidableEq

/-- Initial pool: n workers blocked on the queue, lock free, q submitted
tasks pending. -/
def initPool (n q : Nat) : PoolState :=
  { phases := List.replicate n .idle, lockHolder := none, queued := q }

/-- Interleaved transitions of the pool: a webhook enqueue (line 364), a
worker dequeuing (lines 912-918), a worker winning browser_lock.acquire
(line 922), and a worker releasing at the end of its iteration
(line 959). -/
inductive PoolStep : PoolState → PoolState → Prop where
  | enqueue (st : PoolState) :
      PoolStep st { st with queued := st.queued + 1 }
  | dequeue (st : PoolState) (i : Nat)
      (h : st.phases[i]? = some .idle) (hq : 0 < st.queued) :
      PoolStep st { st with phases := st.phases.set i .waitingForBrowser
                            queued := st.queued - 1 }
  | acquire (st : PoolState) (i : Nat)
      (h : st.phases[i]? = some .waitingForBrowser) (hfree : st.lockHolder = none) :
      PoolStep st { st with phases := st.phases.set i .holdingBrowser
                            lockHolder := some i }
  | release (st : PoolState) (i : Nat)
      (h : st.phases[i]? = some .holdingBrowser) (hold : st.lockHolder = some i) :
      PoolStep st { st with phases := st.phases.set i .idle
                            lockHolder := none }

/-- States reachable from a given initial pool state. -/
inductive PoolReachable (init : PoolState) : PoolState → Prop where
  | refl : PoolReachable init init
  | step {s t : PoolState} : PoolReachable init s → PoolStep s t → PoolReachable init t

/-- Number of workers currently inside the lock-protected region. -/
def countHolding (phases : List WorkerPhase) : Nat :=
  phases.countP (fun p => p == .holdingBrowser)

/-- Lock coherence: a free lock means nobody is in the protected region, a
held lock means exactly its holder is. -/
def PoolInv (st : PoolState) : Prop :=
  match st.lockHolder with
  | none => countHolding st.phases = 0
  | some i => st.phases[i]? = some .holdingBrowser ∧ countHolding st.phases = 1

/-! ## Shared concrete states for witnesses -/

/-- The server state right after init_workers, before any request. -/
def emptyServerState : ServerState :=
  { active_sessions := [], task_queue := [], active_workers := 0
    queue_position := [], browser_in_use := false }

/-- A submission carrying neither a policy code nor the create-account
flag. -/
def payloadNoPolicy : WebhookPayload :=
  { action := "start_automation", task_id := none, policy_code := none
    quote_data := none, create_account := false, account_data := none
    submission_id := none }

/-- A valid submission for an existing policy code, without a caller
supplied task id. -/
def payloadWithPolicy : WebhookPayload :=
  { action := "start_automation", task_id := none
    policy_code := some "TEBP602893", quote_data := none
    create_account := false, account_data := none, submission_id := none }

/-- World of external outcomes in which the full-automation call reports
failure and every other call succeeds. -/
def worldFullFail : AutomationWorld :=
  { login := .ok true
    setup_account := .ok ⟨true, "TEBP602893", "https://quote.example"⟩
    quote_login := .ok true
    quote_nav := .ok true
    quote_fill := .ok ()
    full_automation := .ok ⟨false, "Automation failed", none⟩ }

/-- Initial record as the webhook stores it for a demo submission carrying
a submission id and quote data. -/
def demoInitialRecord : SessionRecord :=
  { status := "running", task_id := "guard_sub-12345678901_99"
    submission_id := some "sub-12345678901"
    policy_code := some "TEBP602893"
    create_account := some false
    queued_at := some "QUEUED"
    queue_position := some 0
    active_workers := some 0
    max_workers := some 3 }

/-- Record that the failed path of the existing-policy flow writes for the
demo submission. -/
def demoFailedRecord : SessionRecord :=
  { status := "failed", task_id := "guard_sub-12345678901_99"
    policy_code := some "TEBP602893", error := some "Automation failed"
    failed_at := some "T" }

/-- Session map holding only the demo record. -/
def demoSessions : SessionMap :=
  [("guard_sub-12345678901_99", demoInitialRecord)]

/-- Server state holding one stored task record. -/
def demoStateWithTask : ServerState :=
  { active_sessions := [("t1", { status := "queued", task_id := "t1" })]
    task_queue := [], active_workers := 0, queue_position := []
    browser_in_use := false }

/-! ## Session map lemmas -/

theorem find_map_set (m : SessionMap) (k : String) (v : SessionRecord) :
    List.find? (fun p => p.1 == k) (List.map (fun p => if p.1 == k then (k, v) else p) m)
      = if List.any m (fun p => p.1 == k) then some (k, v) else none := by
  induction m with
  | nil => simp
  | cons a m ih =>
    cases ha : (a.1 == k) with
    | true =>
      rw [List.map_cons, if_pos ha, List.find?_cons_of_pos _ (by simp)]
      simp [List.any_cons, ha]
    | false =>
      rw [List.map_cons, if_neg (by simp [ha]), List.find?_cons_of_neg _ (by simp [ha]),
        List.any_cons, ha, Bool.false_or]
      exact ih

theorem find_map_set_ne (m : SessionMap) (k k' : String) (v : SessionRecord)
    (hk : k' ≠ k) :
    List.find? (fun p => p.1 == k') (List.map (fun p => if p.1 == k then (k, v) else p) m)
      = List.find? (fun p => p.1 == k') m := by
  have hkk : (k == k') = false := by
    simp only [beq_eq_false_iff_ne, ne_eq]
    exact fun hh => hk hh.symm
  induction m with
  | nil => simp
  | cons a m ih =>
    cases ha : (a.1 == k) with
    | true =>
      have ha' : (a.1 == k') = false := by
        simp only [beq_iff_eq] at ha
        simp only [beq_eq_false_iff_ne, ne_eq, ha]
        exact fun hh => hk hh.symm
      rw [List.map_cons, if_pos ha, List.find?_cons_of_neg _ (by simp [hkk]),
        List.find?_cons_of_neg _ (by simp [ha'])]
      exact ih
    | false =>
      rw [List.map_cons, if_neg (by simp [ha])]
      cases hm : (a.1 == k') with
      | true =>
        rw [List.find?_cons_of_pos _ (by simp [hm]), List.find?_cons_of_pos _ (by simp [hm])]
      | false =>
        rw [List.find?_cons_of_neg _ (by simp [hm]), List.find?_cons_of_neg _ (by simp [hm])]
        exact ih

theorem lookup_setSession_self (m : SessionMap) (k : String) (v : SessionRecord) :
    lookupSession (setSession m k v) k = some v := by
  unfold lookupSession setSession
  by_cases h : List.any m (fun p => p.1 == k)
  · rw [if_pos h, find_map_set, if_pos h]
    rfl
  · rw [if_neg h, List.find?_append]
    have hnone : List.find? (fun p => p.1 == k) m = none := by
      rw [List.find?_eq_none]
      intro x hx hpx
      exact h (List.any_eq_true.mpr ⟨x, hx, hpx⟩)
    rw [hnone, List.find?_cons_of_pos _ (by simp)]
    rfl

theorem lookup_setSession_ne (m : SessionMap) (k k' : String) (v : SessionRecord)
    (hk : k' ≠ k) : lookupSession (setSession m k v) k' = lookupSession m k' := by
  unfold lookupSession setSession
  by_cases h : List.any m (fun p => p.1 == k)
  · rw [if_pos h, find_map_set_ne m k k' v hk]
  · rw [if_neg h, List.find?_append]
    have h2 : List.find? (fun p => p.1 == k') [(k, v)] = none := by
      rw [List.find?_cons_of_neg]
      · rfl
      · simp only [beq_iff_eq]
        exact fun hh => hk hh.symm
    rw [h2]
    simp

theorem lookup_setSession_isSome (m : SessionMap) (k k' : String) (v : SessionRecord)
    (h : (lookupSession m k').isSome) : (lookupSession (setSession m k v) k').isSome := by
  by_cases hk : k' = k
  · subst hk
    rw [lookup_setSession_self]
    rfl
  · rw [lookup_setSession_ne m k k' v hk]
    exact h

theorem lookup_updateSession_isSome (m : SessionMap) (k k' : String)
    (f : SessionRecord → SessionRecord) :
    (lookupSession (updateSession m k f) k').isSome = (lookupSession m k').isSome := by
  unfold lookupSession updateSession
  simp only [Option.isSome_map']
  rw [Bool.eq_iff_iff]
  simp only [List.find?_isSome]
  constructor
  · rintro ⟨x, hx, hpx⟩
    rcases List.mem_map.mp hx with ⟨y, hy, rfl⟩
    refine ⟨y, hy, ?_⟩
    by_cases h : y.1 == k
    · simpa [h] using hpx
    · simpa [h] using hpx
  · rintro ⟨y, hy, hpy⟩
    refine ⟨if y.1 == k then (y.1, f y.2) else y, List.mem_map_of_mem _ hy, ?_⟩
    by_cases h : y.1 == k <;> simp [h, hpy]

/-! ## Claim theorems -/

/-- Claim C2: for every task processed by a worker thread, the browser
lock, once acquired for the task, is released exactly once before the
worker proceeds to the next task, on every path: the guarded region either
completes (normal completion and early returns of the automation routine
both return from run_automation_task_sync) or raises, and in both cases
the event trace of the iteration performs exactly one acquire and exactly
one release, with the release after the acquire and immediately before the
task is marked done. -/
theorem c2_lock_released_once_per_task (task_id : String) (r : RunOutcome) :
    (worker_iteration_events task_id r).countP isRelease = 1
    ∧ (worker_iteration_events task_id r).countP isAcquire = 1
    ∧ ∃ pre, worker_iteration_events task_id r
          = pre ++ [.decrWorkers, .releaseLock, .taskDone]
        ∧ pre.countP isRelease = 0 ∧ pre.countP isAcquire = 1 := by
  cases r with
  | completedNormally =>
    exact ⟨rfl, rfl,
      ⟨[.dequeue task_id, .setWaiting, .acquireLock, .incrWorkers, .setRunning, .runTask],
        rfl, rfl, rfl⟩⟩
  | raised msg =>
    exact ⟨rfl, rfl,
      ⟨[.dequeue task_id, .setWaiting, .acquireLock, .incrWorkers, .setRunning, .runTask,
        .setError msg], rfl, rfl, rfl⟩⟩

theorem fetch_from_all_none (mb : Nat → AttemptResult)
    (h : ∀ a, attempt_code (mb a) = none) :
    ∀ (k a : Nat), fetch_from mb a k = (none, k) := by
  intro k
  induction k with
  | zero => intro a; rfl
  | succ n ih =>
    intro a
    simp only [fetch_from, h a]
    rw [ih (a + 1)]

/-- Claim C8: when the мailbox yields no matching message on any attempt
and the credentials are configured, the 2FA fetch performs exactly
max_retries attempts and returns none; it is a total function, so it
neither raises nor loops forever. -/
theorem c8_fetch_exhausts_retries (gmail_user gmail_password : String)
    (mb : Nat → AttemptResult) (max_retries : Nat)
    (hu : gmail_user.isEmpty = false) (hp : gmail_password.isEmpty = false)
    (hmb : ∀ a, attempt_code (mb a) = none) :
    fetch_guard_verification_code gmail_user gmail_password mb max_retries
      = (none, max_retries) := by
  unfold fetch_guard_verification_code
  rw [if_neg (by simp [hu, hp])]
  exact fetch_from_all_none mb hmb max_retries 1

/-- Witness for C8 at a concrete empty-result mailbox and the default
bound of five retries. -/
theorem c8_fetch_exhausts_retries_witness :
    ("user@example.com" : String).isEmpty = false
    ∧ ("apppassword" : String).isEmpty = false
    ∧ fetch_guard_verification_code "user@example.com" "apppassword"
        (fun _ => AttemptResult.searchFailed) 5 = (none, 5) :=
  ⟨rfl, rfl,
    c8_fetch_exhausts_retries "user@example.com" "apppassword" _ 5 rfl rfl (fun _ => rfl)⟩

/-- Claim C6: in every cleanup sweep, the session-profile directory named
browser_data_default survives whatever its age, and every other
browser_data directory whose age exceeds the threshold is deleted. -/
theorem c6_cleanup_spares_default (now : Nat) (folders : List FsEntry)
    (f : FsEntry) (hf : f ∈ folders) :
    (f.name = "browser_data_default" → f ∈ cleanup_browser_data now folders)
    ∧ (strStarts f.name "browser_data_" = true → f.name ≠ "browser_data_default" →
        max_age_seconds < now - f.mtime → f ∉ cleanup_browser_data now folders) := by
  constructor
  · intro h
    refine List.mem_filter.mpr ⟨hf, ?_⟩
    unfold keep_browser_folder
    rw [h]
    rw [if_neg (by decide), if_pos (by decide)]
  · intro hpre hne hage hmem
    have hkeep := (List.mem_filter.mp hmem).2
    unfold keep_browser_folder at hkeep
    rw [if_neg (by simp [hpre]), if_neg (by simp [hne])] at hkeep
    simp [hage] at hkeep

/-- Witness for C6: two equally old session directories, the default and
browser_data_xyz; only the latter is removed by the sweep. -/
theorem c6_cleanup_spares_default_witness :
    (⟨"browser_data_default", 0⟩ : FsEntry)
        ∈ cleanup_browser_data 200000 [⟨"browser_data_default", 0⟩, ⟨"browser_data_xyz", 0⟩]
    ∧ (⟨"browser_data_xyz", 0⟩ : FsEntry)
        ∉ cleanup_browser_data 200000 [⟨"browser_data_default", 0⟩, ⟨"browser_data_xyz", 0⟩] :=
  ⟨(c6_cleanup_spares_default 200000 _ _ (by simp)).1 rfl,
    (c6_cleanup_spares_default 200000 _ _ (by simp)).2 (by decide) (by decide) (by decide)⟩

/-- Claim C4: a submission with the create-account flag absent or false
and no policy code gets a 400 response, leaves the server state untouched
(no task record, nothing enqueued), and any identifier unknown before the
submission still answers 404 on the status endpoint afterwards. -/
theorem c4_webhook_rejects_no_side_effect (MAX_WORKERS : Nat) (ts now : String)
    (p : WebhookPayload) (st : ServerState)
    (hca : p.create_account = false) (hpc : truthy p.policy_code = false) :
    (webhook_receiver MAX_WORKERS ts now p st).1.code = 400
    ∧ (webhook_receiver MAX_WORKERS ts now p st).2 = st
    ∧ ∀ tid, lookupSession st.active_sessions tid = none →
        get_task_status (webhook_receiver MAX_WORKERS ts now p st).2 tid = (404, none) := by
  have hcond : (!p.create_account && !truthy p.policy_code) = true := by
    rw [hca, hpc]
    rfl
  unfold webhook_receiver
  rw [if_pos hcond]
  refine ⟨rfl, rfl, ?_⟩
  intro tid hnone
  show get_task_status st tid = (404, none)
  unfold get_task_status
  rw [hnone]

/-- Claim C3: a valid start_automation submission (policy code present or
create-account flag set) synthesizes a task identifier when none is
supplied, records an initial record whose status is queued exactly when
the active-worker count has reached MAX_WORKERS and running otherwise,
appends the job to the queue, and answers 202 with status accepted, the
task identifier and the status-polling path. -/
theorem c3_webhook_accepts_valid_submission (MAX_WORKERS : Nat) (ts now : String)
    (p : WebhookPayload) (st : ServerState)
    (hvalid : p.create_account = true ∨ truthy p.policy_code = true)
    (haction : p.action = "start_automation") :
    (webhook_receiver MAX_WORKERS ts now p st).1.code = 202
    ∧ (webhook_receiver MAX_WORKERS ts now p st).1.status = "accepted"
    ∧ (webhook_receiver MAX_WORKERS ts now p st).1.task_id = some (generate_task_id p ts)
    ∧ (p.task_id = none → generate_task_id p ts =
        (if truthy p.submission_id then "guard_" ++ p.submission_id.getD "" ++ "_" ++ ts
         else "guard_" ++ orElseStr p.policy_code "new" ++ "_" ++ ts))
    ∧ (webhook_receiver MAX_WORKERS ts now p st).1.status_url
        = some ("/task/" ++ generate_task_id p ts ++ "/status")
    ∧ (lookupSession (webhook_receiver MAX_WORKERS ts now p st).2.active_sessions
          (generate_task_id p ts)).map SessionRecord.status
        = some (if MAX_WORKERS ≤ st.active_workers then "queued" else "running")
    ∧ (webhook_receiver MAX_WORKERS ts now p st).2.task_queue
        = st.task_queue ++
            [{ task_id := generate_task_id p ts, policy_code := p.policy_code
               quote_data := p.quote_data, create_account := p.create_account
               account_data := p.account_data }] := by
  have hcond : (!p.create_account && !truthy p.policy_code) = false := by
    rcases hvalid with h | h <;> rw [h] <;> simp
  have hact : (p.action == "start_automation") = true := by
    rw [haction]
    rfl
  unfold webhook_receiver
  rw [if_neg (by simp [hcond]), if_pos hact]
  refine ⟨rfl, rfl, rfl, ?_, rfl, ?_, rfl⟩
  · intro hnone
    unfold generate_task_id
    rw [hnone]
    by_cases hs : truthy p.submission_id = true
    · rw [if_pos hs, if_pos hs]
      rfl
    · rw [if_neg hs, if_neg hs]
      rfl
  · show (lookupSession (setSession st.active_sessions (generate_task_id p ts) _)
      (generate_task_id p ts)).map SessionRecord.status = _
    rw [lookup_setSession_self]
    rfl

/-- Witness for C3: a concrete policy-code submission against a fresh
server with three workers configured. -/
theorem c3_webhook_accepts_witness :
    truthy payloadWithPolicy.policy_code = true
    ∧ payloadWithPolicy.action = "start_automation"
    ∧ ((webhook_receiver 3 "20250101" "NOW" payloadWithPolicy emptyServerState).1.code = 202
      ∧ (webhook_receiver 3 "20250101" "NOW" payloadWithPolicy emptyServerState).1.status
          = "accepted"
      ∧ (webhook_receiver 3 "20250101" "NOW" payloadWithPolicy emptyServerState).1.task_id
          = some (generate_task_id payloadWithPolicy "20250101")
      ∧ (payloadWithPolicy.task_id = none → generate_task_id payloadWithPolicy "20250101" =
          (if truthy payloadWithPolicy.submission_id then
            "guard_" ++ payloadWithPolicy.submission_id.getD "" ++ "_" ++ "20250101"
          else "guard_" ++ orElseStr payloadWithPolicy.policy_code "new" ++ "_" ++ "20250101"))
      ∧ (webhook_receiver 3 "20250101" "NOW" payloadWithPolicy emptyServerState).1.status_url
          = some ("/task/" ++ generate_task_id payloadWithPolicy "20250101" ++ "/status")
      ∧ (lookupSession (webhook_receiver 3 "20250101" "NOW" payloadWithPolicy
            emptyServerState).2.active_sessions
            (generate_task_id payloadWithPolicy "20250101")).map SessionRecord.status
          = some (if (3 : Nat) ≤ emptyServerState.active_workers then "queued" else "running")
      ∧ (webhook_receiver 3 "20250101" "NOW" payloadWithPolicy emptyServerState).2.task_queue
          = emptyServerState.task_queue ++
              [{ task_id := generate_task_id payloadWithPolicy "20250101"
                 policy_code := payloadWithPolicy.policy_code
                 quote_data := payloadWithPolicy.quote_data
                 create_account := payloadWithPolicy.create_account
                 account_data := payloadWithPolicy.account_data }]) :=
  ⟨rfl, rfl, c3_webhook_accepts_valid_submission 3 "20250101" "NOW" payloadWithPolicy
    emptyServerState (Or.inr rfl) rfl⟩

theorem mtime_ge_trans (a b c : FsEntry) (hab : mtime_ge a b = true)
    (hbc : mtime_ge b c = true) : mtime_ge a c = true := by
  simp only [mtime_ge, decide_eq_true_eq] at *
  omega

theorem mtime_ge_total (a b : FsEntry) : (mtime_ge a b || mtime_ge b a) = true := by
  simp only [mtime_ge, Bool.or_eq_true, decide_eq_true_eq]
  omega

/-- Claim C7: when more than MAX_TRACE_FILES trace files exist (with
distinct modification times), the sweep keeps exactly MAX_TRACE_FILES of
them, all drawn from the original set, and every survivor is strictly more
recent than every deleted file; when at most MAX_TRACE_FILES exist, the
trace-retention step removes nothing. -/
theorem c7_trace_retention (traces : List FsEntry)
    (hinj : ∀ f ∈ traces, ∀ g ∈ traces, f ≠ g → f.mtime ≠ g.mtime) :
    (MAX_TRACE_FILES < traces.length →
      (cleanup_traces traces).length = MAX_TRACE_FILES
      ∧ (∀ f ∈ cleanup_traces traces, f ∈ traces)
      ∧ (∀ f ∈ cleanup_traces traces, ∀ g ∈ traces, g ∉ cleanup_traces traces →
          g.mtime < f.mtime))
    ∧ (traces.length ≤ MAX_TRACE_FILES → cleanup_traces traces = traces) := by
  have hperm : (traces.mergeSort mtime_ge).Perm traces := List.mergeSort_perm traces mtime_ge
  have hlen : (traces.mergeSort mtime_ge).length = traces.length := hperm.length_eq
  have hsorted : List.Pairwise (fun a b => mtime_ge a b = true) (traces.mergeSort mtime_ge) :=
    List.sorted_mergeSort (fun a b c => mtime_ge_trans a b c) mtime_ge_total traces
  constructor
  · intro hgt
    have hcond : MAX_TRACE_FILES < (traces.mergeSort mtime_ge).length := by
      rw [hlen]
      exact hgt
    have hres : cleanup_traces traces
        = (traces.mergeSort mtime_ge).take MAX_TRACE_FILES := by
      unfold cleanup_traces
      rw [if_pos hcond]
    have hmemtr : ∀ f ∈ cleanup_traces traces, f ∈ traces := by
      intro f hf
      rw [hres] at hf
      exact hperm.mem_iff.mp (List.mem_of_mem_take hf)
    refine ⟨?_, hmemtr, ?_⟩
    · rw [hres, List.length_take, hlen]
      omega
    · intro f hf g hg hgnot
      rw [hres] at hf hgnot
      have hgsorted : g ∈ (traces.mergeSort mtime_ge).drop MAX_TRACE_FILES := by
        have hgmem : g ∈ traces.mergeSort mtime_ge := hperm.mem_iff.mpr hg
        rcases List.mem_append.mp
            (by rwa [← List.take_append_drop MAX_TRACE_FILES (traces.mergeSort mtime_ge)]
              at hgmem) with h | h
        · exact absurd h hgnot
        · exact h
      have hge : mtime_ge f g = true := by
        have hsplit := hsorted
        rw [← List.take_append_drop MAX_TRACE_FILES (traces.mergeSort mtime_ge)] at hsplit
        exact (List.pairwise_append.mp hsplit).2.2 f hf g hgsorted
      have hfg : f ≠ g := by
        intro hh
        rw [hh] at hf
        exact hgnot hf
      have hne := hinj f (hmemtr f (by rw [hres]; exact hf)) g hg hfg
      simp only [mtime_ge, decide_eq_true_eq] at hge
      omega
  · intro hle
    unfold cleanup_traces
    rw [if_neg]
    simp only [not_lt, gt_iff_lt, hlen]
    omega

/-- Witness for C7: seven trace files with distinct modification times;
after the sweep exactly five remain and the two oldest are gone. -/
theorem c7_trace_retention_witness :
    (cleanup_traces [⟨"a.zip", 10⟩, ⟨"b.zip", 20⟩, ⟨"c.zip", 30⟩, ⟨"d.zip", 40⟩,
        ⟨"e.zip", 50⟩, ⟨"f.zip", 60⟩, ⟨"g.zip", 70⟩]).length = MAX_TRACE_FILES
    ∧ cleanup_traces [⟨"a.zip", 10⟩, ⟨"b.zip", 20⟩, ⟨"c.zip", 30⟩] =
        [⟨"a.zip", 10⟩, ⟨"b.zip", 20⟩, ⟨"c.zip", 30⟩] :=
  ⟨((c7_trace_retention _ (by decide)).1 (by decide)).1,
    (c7_trace_retention _ (by decide)).2 (by decide)⟩

/-- Counterexample to claim C5 as stated: the directory holds only
default.zip, so no trace was ever saved for the identifier xyz (no file
name even contains xyz), yet the endpoint serves default.zip instead of
answering 404. -/
theorem c5_counterexample :
    get_trace ["default.zip"] "xyz" = some "default.zip"
    ∧ "xyz.zip" ∉ (["default.zip"] : List String)
    ∧ (["default.zip"] : List String).all (fun t => !(strContains t "xyz")) = true := by
  refine ⟨?_, by decide, by decide⟩
  decide

/-- Claim C5 (amended): the trace endpoint answers 404 exactly when no
file named task_id.zip exists, no default.zip exists, and no zip file
containing the task id as a substring exists; otherwise it serves the
first such candidate, which need not be a trace saved for that exact
identifier. -/
theorem c5_trace_404_iff_no_candidate (traces : List String) (task_id : String) :
    get_trace traces task_id = none
      ↔ (task_id ++ ".zip") ∉ traces ∧ "default.zip" ∉ traces
        ∧ ∀ t ∈ traces, glob_matches task_id t = false := by
  unfold get_trace
  rw [List.find?_eq_none]
  constructor
  · intro h
    refine ⟨?_, ?_, ?_⟩
    · intro hmem
      exact h _ (List.mem_cons_self _ _) (by simpa using hmem)
    · intro hmem
      exact h _ (List.mem_cons_of_mem _ (List.mem_cons_self _ _)) (by simpa using hmem)
    · intro t ht
      by_contra hg
      have hg' : glob_matches task_id t = true := by
        cases hgm : glob_matches task_id t with
        | true => rfl
        | false => exact absurd hgm hg
      have htc : t ∈ (task_id ++ ".zip") :: "default.zip" :: traces.filter (glob_matches task_id) :=
        List.mem_cons_of_mem _ (List.mem_cons_of_mem _ (List.mem_filter.mpr ⟨ht, hg'⟩))
      exact h t htc (by simpa using ht)
  · rintro ⟨h1, h2, h3⟩ x hx
    rcases List.mem_cons.mp hx with rfl | hx2
    · simpa using h1
    · rcases List.mem_cons.mp hx2 with rfl | hx3
      · simpa using h2
      · have := List.mem_filter.mp hx3
        rw [h3 x this.1] at this
        exact absurd this.2 (by simp)

/-! ## Pool invariant lemmas -/

theorem countP_set_congr {α : Type} (p : α → Bool) :
    ∀ (l : List α) (i : Nat) (x y : α), l[i]? = some y → p x = p y →
      (l.set i x).countP p = l.countP p := by
  intro l
  induction l with
  | nil =>
    intro i x y hget
    simp at hget
  | cons a as ih =>
    intro i x y hget hxy
    cases i with
    | zero =>
      rw [List.getElem?_cons_zero] at hget
      injection hget with hget
      subst hget
      simp [List.countP_cons, hxy]
    | succ n =>
      rw [List.getElem?_cons_succ] at hget
      simp only [List.set_cons_succ, List.countP_cons, ih n x y hget hxy]

theorem countP_set_incr {α : Type} (p : α → Bool) :
    ∀ (l : List α) (i : Nat) (x y : α), l[i]? = some y → p y = false → p x = true →
      (l.set i x).countP p = l.countP p + 1 := by
  intro l
  induction l with
  | nil =>
    intro i x y hget
    simp at hget
  | cons a as ih =>
    intro i x y hget hy hx
    cases i with
    | zero =>
      rw [List.getElem?_cons_zero] at hget
      injection hget with hget
      subst hget
      simp [List.countP_cons, hy, hx]
    | succ n =>
      rw [List.getElem?_cons_succ] at hget
      simp only [List.set_cons_succ, List.countP_cons, ih n x y hget hy hx]
      omega

theorem countP_set_decr {α : Type} (p : α → Bool) :
    ∀ (l : List α) (i : Nat) (x y : α), l[i]? = some y → p y = true → p x = false →
      l.countP p = (l.set i x).countP p + 1 := by
  intro l
  induction l with
  | nil =>
    intro i x y hget
    simp at hget
  | cons a as ih =>
    intro i x y hget hy hx
    cases i with
    | zero =>
      rw [List.getElem?_cons_zero] at hget
      injection hget with hget
      subst hget
      simp [List.countP_cons, hy, hx]
    | succ n =>
      rw [List.getElem?_cons_succ] at hget
      simp only [List.set_cons_succ, List.countP_cons, ih n x y hget hy hx]
      omega

theorem poolInv_init (n q : Nat) : PoolInv (initPool n q) := by
  show countHolding (List.replicate n WorkerPhase.idle) = 0
  unfold countHolding
  rw [List.countP_eq_zero]
  intro a ha
  rw [(List.mem_replicate.mp ha).2]
  decide

theorem poolInv_step {s t : PoolState} (hstep : PoolStep s t) (hinv : PoolInv s) :
    PoolInv t := by
  cases hstep with
  | enqueue => exact hinv
  | dequeue i h hq =>
    unfold PoolInv at hinv ⊢
    cases hh : s.lockHolder with
    | none =>
      simp only [hh] at hinv ⊢
      unfold countHolding at hinv ⊢
      rw [countP_set_congr (fun p => p == WorkerPhase.holdingBrowser) s.phases i
          WorkerPhase.waitingForBrowser WorkerPhase.idle h rfl]
      exact hinv
    | some j =>
      simp only [hh] at hinv ⊢
      obtain ⟨hj, hcount⟩ := hinv
      have hij : i ≠ j := by
        intro he
        rw [he, hj] at h
        exact absurd (Option.some.inj h) (by decide)
      refine ⟨?_, ?_⟩
      · rw [List.getElem?_set_ne hij]
        exact hj
      · unfold countHolding at hcount ⊢
        rw [countP_set_congr (fun p => p == WorkerPhase.holdingBrowser) s.phases i
          WorkerPhase.waitingForBrowser WorkerPhase.idle h rfl]
        exact hcount
  | acquire i h hfree =>
    unfold PoolInv at hinv ⊢
    simp only [hfree] at hinv
    simp only []
    have hlt : i < s.phases.length := (List.getElem?_eq_some.mp h).1
    refine ⟨List.getElem?_set_self hlt, ?_⟩
    unfold countHolding at hinv ⊢
    rw [countP_set_incr (fun p => p == WorkerPhase.holdingBrowser) s.phases i
      WorkerPhase.holdingBrowser WorkerPhase.waitingForBrowser h rfl rfl, hinv]
  | release i h hold =>
    unfold PoolInv at hinv ⊢
    simp only [hold] at hinv
    simp only []
    obtain ⟨hj, hcount⟩ := hinv
    unfold countHolding at hcount ⊢
    have hdec := countP_set_decr (fun p => p == WorkerPhase.holdingBrowser)
      s.phases i WorkerPhase.idle WorkerPhase.holdingBrowser h rfl rfl
    omega

theorem poolInv_reachable (n q : Nat) (st : PoolState)
    (h : PoolReachable (initPool n q) st) : PoolInv st := by
  induction h with
  | refl => exact poolInv_init n q
  | step _ hs ih => exact poolInv_step hs ih

/-- Claim C1: in every execution of the worker pool, whatever the
configured pool size above one and the queue depth, at most one worker is
inside the browser-lock protected region at any instant: browser work is
fully serialized by the single mutex. -/
theorem c1_at_most_one_lock_holder (n q : Nat) (st : PoolState)
    (hn : 1 < n) (h : PoolReachable (initPool n q) st) :
    countHolding st.phases ≤ 1 := by
  have hinv := poolInv_reachable n q st h
  unfold PoolInv at hinv
  cases hh : st.lockHolder with
  | none =>
    simp only [hh] at hinv
    omega
  | some i =>
    simp only [hh] at hinv
    omega

/-- Witness for C1: a pool of two workers and one queued task, after the
first worker dequeued and acquired the browser lock. -/
theorem c1_at_most_one_lock_holder_witness :
    (1 : Nat) < 2
    ∧ countHolding [WorkerPhase.holdingBrowser, WorkerPhase.idle] ≤ 1 :=
  ⟨by decide,
    c1_at_most_one_lock_holder 2 1 _ (by decide)
      (.step (.step .refl (.dequeue _ 0 (by decide) (by decide)))
        (.acquire _ 0 (by decide) (by decide)))⟩

/-- Witness for C4 at a concrete empty payload against a fresh server. -/
theorem c4_webhook_rejects_witness :
    payloadNoPolicy.create_account = false
    ∧ truthy payloadNoPolicy.policy_code = false
    ∧ (webhook_receiver 3 "ts" "now" payloadNoPolicy emptyServerState).1.code = 400
    ∧ (webhook_receiver 3 "ts" "now" payloadNoPolicy emptyServerState).2 = emptyServerState
    ∧ get_task_status (webhook_receiver 3 "ts" "now" payloadNoPolicy emptyServerState).2
        "guard_new_ts" = (404, none) :=
  ⟨rfl, rfl,
    (c4_webhook_rejects_no_side_effect 3 "ts" "now" payloadNoPolicy emptyServerState rfl rfl).1,
    (c4_webhook_rejects_no_side_effect 3 "ts" "now" payloadNoPolicy emptyServerState rfl rfl).2.1,
    (c4_webhook_rejects_no_side_effect 3 "ts" "now" payloadNoPolicy emptyServerState rfl rfl).2.2
      "guard_new_ts" rfl⟩

/-! ## Key retention across all operations (claim C9) -/

theorem run_task_keeps (now : String) (w : AutomationWorld) (task_id : String)
    (pc : Option String) (ca : Bool) (sessions : SessionMap) (k : String)
    (h : (lookupSession sessions k).isSome) :
    (lookupSession (run_automation_task now w task_id pc ca sessions).1 k).isSome := by
  have hupd : ∀ f : SessionRecord → SessionRecord,
      (lookupSession (updateSession sessions task_id f) k).isSome := by
    intro f
    rw [lookup_updateSession_isSome]
    exact h
  unfold run_automation_task
  cases ca with
  | true =>
    cases w.login with
    | error e => exact lookup_setSession_isSome _ _ _ _ h
    | ok lb =>
      cases lb with
      | false => exact lookup_setSession_isSome _ _ _ _ h
      | true =>
        cases w.setup_account with
        | error e => exact lookup_setSession_isSome _ _ _ _ h
        | ok ar =>
          cases ar with
          | mk succ pcode qurl =>
          cases succ with
          | false => exact lookup_setSession_isSome _ _ _ _ h
          | true =>
            cases w.quote_login with
            | error e => exact lookup_setSession_isSome _ _ _ _ (hupd _)
            | ok ql =>
              cases ql with
              | false => exact lookup_setSession_isSome _ _ _ _ (hupd _)
              | true =>
                cases w.quote_nav with
                | error e => exact lookup_setSession_isSome _ _ _ _ (hupd _)
                | ok nv =>
                  cases nv with
                  | false => exact lookup_setSession_isSome _ _ _ _ (hupd _)
                  | true =>
                    cases w.quote_fill with
                    | error e => exact lookup_setSession_isSome _ _ _ _ (hupd _)
                    | ok u => exact lookup_setSession_isSome _ _ _ _ (hupd _)
  | false =>
    cases w.full_automation with
    | error e => exact lookup_setSession_isSome _ _ _ _ h
    | ok ar =>
      cases ar with
      | mk succ msg qurl =>
      cases succ with
      | true => exact lookup_setSession_isSome _ _ _ _ h
      | false => exact lookup_setSession_isSome _ _ _ _ h

theorem worker_iteration_keeps (now : String) (w : AutomationWorld)
    (exc : Option String) (st : ServerState) (k : String)
    (h : (lookupSession st.active_sessions k).isSome) :
    (lookupSession (worker_iteration now w exc st).1.active_sessions k).isSome := by
  unfold worker_iteration
  cases hq : st.task_queue with
  | nil => exact h
  | cons item rest =>
    have h1 : (lookupSession (updateSession st.active_sessions item.task_id (fun r =>
        { r with status := "waiting_for_browser", picked_at := some now })) k).isSome := by
      rw [lookup_updateSession_isSome]
      exact h
    have h2 : (lookupSession (updateSession
        (updateSession st.active_sessions item.task_id (fun r =>
          { r with status := "waiting_for_browser", picked_at := some now }))
        item.task_id (fun r =>
          { r with status := "running", queue_position := some 0
                   started_at := some now })) k).isSome := by
      rw [lookup_updateSession_isSome]
      exact h1
    have h3 := run_task_keeps now w item.task_id item.policy_code item.create_account _ k h2
    cases exc with
    | none => exact h3
    | some e =>
      have h4 : (lookupSession (updateSession
          (run_automation_task now w item.task_id item.policy_code item.create_account
            (updateSession
              (updateSession st.active_sessions item.task_id (fun r =>
                { r with status := "waiting_for_browser", picked_at := some now }))
              item.task_id (fun r =>
                { r with status := "running", queue_position := some 0
                         started_at := some now }))).1
          item.task_id (fun r => { r with status := "error", error := some e })) k).isSome := by
        rw [lookup_updateSession_isSome]
        exact h3
      exact h4

/-- Claim C9: once a task record exists in the in-memory task-status map,
every operation of the system (submission handling, a full worker
iteration on any success or failure path, the read-only endpoints, the
cleanup sweep) leaves an entry under that identifier in the map: no
operation removes a key. -/
theorem c9_task_records_never_removed (op : ServerOp) (st : ServerState) (tid : String)
    (h : (lookupSession st.active_sessions tid).isSome) :
    (lookupSession (applyOp op st).active_sessions tid).isSome := by
  cases op with
  | webhook mw ts now p =>
    show (lookupSession (webhook_receiver mw ts now p st).2.active_sessions tid).isSome
    unfold webhook_receiver
    by_cases h1 : (!p.create_account && !truthy p.policy_code) = true
    · rw [if_pos h1]
      exact h
    · rw [if_neg h1]
      by_cases h2 : (p.action == "start_automation") = true
      · rw [if_pos h2]
        exact lookup_setSession_isSome _ _ _ _ h
      · rw [if_neg h2]
        exact h
  | workerLoop now w exc => exact worker_iteration_keeps now w exc st tid h
  | statusLookup t => exact h
  | healthCheck => exact h
  | listTasks => exact h
  | queueStatus => exact h
  | traceFetch t => exact h
  | listTraces => exact h
  | cleanupSweep => exact h

/-- Witness for C9: a stored record survives a webhook submission. -/
theorem c9_task_records_never_removed_witness :
    (lookupSession demoStateWithTask.active_sessions "t1").isSome = true
    ∧ (lookupSession (applyOp (.webhook 3 "ts" "now" payloadWithPolicy)
        demoStateWithTask).active_sessions "t1").isSome = true :=
  ⟨by decide,
    c9_task_records_never_removed (.webhook 3 "ts" "now" payloadWithPolicy)
      demoStateWithTask "t1" (by decide)⟩

/-! ## Failure-path record replacement (claim C10) -/

theorem c10h_failed_notify (now task_id err : String) (s : SessionMap) :
    (∀ r, lookupSession (failed_notify_path now task_id err s).1 task_id = some r →
      r.status = "failed" ∨ r.status = "error" →
      r.submission_id = none ∧ r.quote_data = none ∧ r.queued_at = none
        ∧ r.create_account = none)
    ∧ ∀ n ∈ (failed_notify_path now task_id err s).2, n.success = false →
        n.submission_id_read = none := by
  constructor
  · intro r hr hst
    have heq : lookupSession (failed_notify_path now task_id err s).1 task_id
        = some (failed_record now task_id err) := lookup_setSession_self _ _ _
    rw [heq] at hr
    cases Option.some.inj hr
    exact ⟨rfl, rfl, rfl, rfl⟩
  · intro n hn hfalse
    have hn' : n ∈ [notify_coversheet_completion task_id
        (read_submission_id (setSession s task_id (failed_record now task_id err)) task_id)
        false (some err)] := hn
    cases List.mem_singleton.mp hn'
    show read_submission_id (setSession s task_id (failed_record now task_id err)) task_id
        = none
    unfold read_submission_id
    rw [lookup_setSession_self]
    rfl

theorem c10h_failed_silent (now task_id err : String) (s : SessionMap) :
    (∀ r, lookupSession (failed_silent_path now task_id err s).1 task_id = some r →
      r.status = "failed" ∨ r.status = "error" →
      r.submission_id = none ∧ r.quote_data = none ∧ r.queued_at = none
        ∧ r.create_account = none)
    ∧ ∀ n ∈ (failed_silent_path now task_id err s).2, n.success = false →
        n.submission_id_read = none := by
  constructor
  · intro r hr hst
    have heq : lookupSession (failed_silent_path now task_id err s).1 task_id
        = some (failed_record now task_id err) := lookup_setSession_self _ _ _
    rw [heq] at hr
    cases Option.some.inj hr
    exact ⟨rfl, rfl, rfl, rfl⟩
  · intro n hn hfalse
    have hn' : n ∈ ([] : List Notification) := hn
    exact absurd hn' (List.not_mem_nil n)

theorem c10h_outer_error (now task_id : String) (pc : Option String) (e : RaisedExc)
    (s : SessionMap) :
    (∀ r, lookupSession (outer_error_path now task_id pc e s).1 task_id = some r →
      r.status = "failed" ∨ r.status = "error" →
      r.submission_id = none ∧ r.quote_data = none ∧ r.queued_at = none
        ∧ r.create_account = none)
    ∧ ∀ n ∈ (outer_error_path now task_id pc e s).2, n.success = false →
        n.submission_id_read = none := by
  constructor
  · intro r hr hst
    have heq : lookupSession (outer_error_path now task_id pc e s).1 task_id
        = some { status := "error", task_id := task_id, policy_code := pc
                 error := some e.message, error_type := some e.etype
                 traceback := some e.tb, failed_at := some now } :=
      lookup_setSession_self _ _ _
    rw [heq] at hr
    cases Option.some.inj hr
    exact ⟨rfl, rfl, rfl, rfl⟩
  · intro n hn hfalse
    have hn' : n ∈ [notify_coversheet_completion task_id
        (read_submission_id (setSession s task_id
          { status := "error", task_id := task_id, policy_code := pc
            error := some e.message, error_type := some e.etype
            traceback := some e.tb, failed_at := some now }) task_id)
        false (some e.message)] := hn
    cases List.mem_singleton.mp hn'
    show read_submission_id (setSession s task_id
        { status := "error", task_id := task_id, policy_code := pc
          error := some e.message, error_type := some e.etype
          traceback := some e.tb, failed_at := some now }) task_id = none
    unfold read_submission_id
    rw [lookup_setSession_self]
    rfl

theorem c10h_completed_account (now task_id new_code qurl : String) (s : SessionMap) :
    (∀ r, lookupSession (completed_account_path now task_id new_code qurl s).1 task_id
          = some r →
      r.status = "failed" ∨ r.status = "error" →
      r.submission_id = none ∧ r.quote_data = none ∧ r.queued_at = none
        ∧ r.create_account = none)
    ∧ ∀ n ∈ (completed_account_path now task_id new_code qurl s).2, n.success = false →
        n.submission_id_read = none := by
  constructor
  · intro r hr hst
    have heq : lookupSession (completed_account_path now task_id new_code qurl s).1 task_id
        = some { status := "completed", task_id := task_id, policy_code := some new_code
                 completed_at := some now
                 message := some ("Quote automation completed successfully for policy "
                   ++ new_code)
                 quotation_url := some qurl } :=
      lookup_setSession_self _ _ _
    rw [heq] at hr
    cases Option.some.inj hr
    rcases hst with hst | hst <;> simp at hst
  · intro n hn hfalse
    have hn' : n ∈ [notify_coversheet_completion task_id
        (read_submission_id (setSession s task_id
          { status := "completed", task_id := task_id, policy_code := some new_code
            completed_at := some now
            message := some ("Quote automation completed successfully for policy "
              ++ new_code)
            quotation_url := some qurl }) task_id)
        true none] := hn
    cases List.mem_singleton.mp hn'
    have hh : (true : Bool) = false := hfalse
    exact absurd hh (by decide)

theorem c10h_completed_full (now task_id : String) (pc : Option String) (msg : String)
    (s : SessionMap) :
    (∀ r, lookupSession (completed_full_path now task_id pc msg s).1 task_id = some r →
      r.status = "failed" ∨ r.status = "error" →
      r.submission_id = none ∧ r.quote_data = none ∧ r.queued_at = none
        ∧ r.create_account = none)
    ∧ ∀ n ∈ (completed_full_path now task_id pc msg s).2, n.success = false →
        n.submission_id_read = none := by
  constructor
  · intro r hr hst
    have heq : lookupSession (completed_full_path now task_id pc msg s).1 task_id
        = some { status := "completed", task_id := task_id, policy_code := pc
                 completed_at := some now, message := some msg, result := some msg } :=
      lookup_setSession_self _ _ _
    rw [heq] at hr
    cases Option.some.inj hr
    rcases hst with hst | hst <;> simp at hst
  · intro n hn hfalse
    have hn' : n ∈ [notify_coversheet_completion task_id
        (read_submission_id (setSession s task_id
          { status := "completed", task_id := task_id, policy_code := pc
            completed_at := some now, message := some msg, result := some msg }) task_id)
        true none] := hn
    cases List.mem_singleton.mp hn'
    have hh : (true : Bool) = false := hfalse
    exact absurd hh (by decide)

theorem c10h_failed_full (now task_id : String) (pc : Option String) (msg : String)
    (s : SessionMap) :
    (∀ r, lookupSession (failed_full_path now task_id pc msg s).1 task_id = some r →
      r.status = "failed" ∨ r.status = "error" →
      r.submission_id = none ∧ r.quote_data = none ∧ r.queued_at = none
        ∧ r.create_account = none)
    ∧ ∀ n ∈ (failed_full_path now task_id pc msg s).2, n.success = false →
        n.submission_id_read = none := by
  constructor
  · intro r hr hst
    have heq : lookupSession (failed_full_path now task_id pc msg s).1 task_id
        = some { status := "failed", task_id := task_id, policy_code := pc
                 error := some msg, failed_at := some now } :=
      lookup_setSession_self _ _ _
    rw [heq] at hr
    cases Option.some.inj hr
    exact ⟨rfl, rfl, rfl, rfl⟩
  · intro n hn hfalse
    have hn' : n ∈ [notify_coversheet_completion task_id
        (read_submission_id (setSession s task_id
          { status := "failed", task_id := task_id, policy_code := pc
            error := some msg, failed_at := some now }) task_id)
        false (some msg)] := hn
    cases List.mem_singleton.mp hn'
    show read_submission_id (setSession s task_id
        { status := "failed", task_id := task_id, policy_code := pc
          error := some msg, failed_at := some now }) task_id = none
    unfold read_submission_id
    rw [lookup_setSession_self]
    rfl

/-- Claim C10 (amended): when a task reaches a failed or error outcome,
run_automation_task has replaced its record with a fresh one carrying only
status, task identifier, error fields, a failure timestamp and, on the
paths of the existing-policy flow and the outer exception handler, the
policy code; the fields recorded at submission (submission_id, quote_data,
queued_at, create_account) read back absent, and the submission_id read
back for every failure notification is absent. -/
theorem c10_failure_record_drops_submission_fields (now : String) (w : AutomationWorld)
    (task_id : String) (pc : Option String) (ca : Bool) (sessions : SessionMap) :
    (∀ r, lookupSession (run_automation_task now w task_id pc ca sessions).1 task_id
          = some r →
      r.status = "failed" ∨ r.status = "error" →
      r.submission_id = none ∧ r.quote_data = none ∧ r.queued_at = none
        ∧ r.create_account = none)
    ∧ ∀ n ∈ (run_automation_task now w task_id pc ca sessions).2, n.success = false →
        n.submission_id_read = none := by
  unfold run_automation_task
  cases ca with
  | true =>
    cases w.login with
    | error e => exact c10h_outer_error now task_id pc e sessions
    | ok lb =>
      cases lb with
      | false => exact c10h_failed_notify now task_id _ sessions
      | true =>
        cases w.setup_account with
        | error e => exact c10h_outer_error now task_id pc e sessions
        | ok ar =>
          cases ar with
          | mk succ pcode qurl =>
          cases succ with
          | false => exact c10h_failed_notify now task_id _ sessions
          | true =>
            cases w.quote_login with
            | error e => exact c10h_failed_notify now task_id _ _
            | ok ql =>
              cases ql with
              | false => exact c10h_failed_silent now task_id _ _
              | true =>
                cases w.quote_nav with
                | error e => exact c10h_failed_notify now task_id _ _
                | ok nv =>
                  cases nv with
                  | false => exact c10h_failed_silent now task_id _ _
                  | true =>
                    cases w.quote_fill with
                    | error e => exact c10h_failed_notify now task_id _ _
                    | ok u => exact c10h_completed_account now task_id _ _ _
  | false =>
    cases w.full_automation with
    | error e => exact c10h_outer_error now task_id pc e sessions
    | ok ar =>
      cases ar with
      | mk succ msg qurl =>
      cases succ with
      | true => exact c10h_completed_full now task_id pc _ sessions
      | false => exact c10h_failed_full now task_id pc _ sessions

/-- Counterexample to claim C10 as stated: on the failed path of the
existing-policy flow, the replacement record is not limited to status,
task identifier, error fields and a failure timestamp: it also carries the
policy code. -/
theorem c10_counterexample :
    (lookupSession (run_automation_task "T" worldFullFail "guard_sub-12345678901_99"
        (some "TEBP602893") false demoSessions).1 "guard_sub-12345678901_99").map
        (fun r => (r.status, r.policy_code))
      = some ("failed", some "TEBP602893") := by
  decide

/-- Witness for C10 (amended) at the concrete failing world: the replaced
record has dropped the submission fields recorded at submission time, and
the failure notification read back an absent submission id. -/
theorem c10_failure_record_witness :
    (demoFailedRecord.submission_id = none
      ∧ demoFailedRecord.quote_data = none
      ∧ demoFailedRecord.queued_at = none
      ∧ demoFailedRecord.create_account = none)
    ∧ (notify_coversheet_completion "guard_sub-12345678901_99" none false
        (some "Automation failed")).submission_id_read = none :=
  ⟨(c10_failure_record_drops_submission_fields "T" worldFullFail "guard_sub-12345678901_99"
      (some "TEBP602893") false demoSessions).1 demoFailedRecord (by decide) (Or.inl rfl),
    (c10_failure_record_drops_submission_fields "T" worldFullFail "guard_sub-12345678901_99"
      (some "TEBP602893") false demoSessions).2 _ (by decide) rfl⟩

end Guard
